import Mathlib

/-!
Verification development for the persistent bash-session command tool
(`src/tools/system_tools.py`, class `CommandTool`).

The Python functions are shallowly embedded as pure Lean functions.
External effects (process liveness, pipe writes succeeding, lines arriving
on the shared stdout/stderr queue) are supplied by explicit environment
records; the embedded executor returns a structured result together with a
log of the externally visible actions it performed (stdin writes, session
closes, session starts).
-/

namespace CyberAgent

/-! ## Python string primitives -/

/-- The whitespace set of Python's `str.strip()` (ASCII part). -/
def isPySpace (c : Char) : Bool :=
  c == ' ' || c == '\t' || c == '\n' || c == '\r' || c == '\x0b' || c == '\x0c'

/-- `str.strip()` on a list of characters: drop whitespace from both ends. -/
def pyStripList (l : List Char) : List Char :=
  ((l.dropWhile isPySpace).reverse.dropWhile isPySpace).reverse

/-- Python `str.strip()`. -/
def pyStrip (s : String) : String := String.mk (pyStripList s.data)

/-- ASCII lowering of one character, as `str.lower()` acts on the ASCII
characters that make up shell commands. -/
def asciiLower (c : Char) : Char :=
  match c with
  | 'A' => 'a' | 'B' => 'b' | 'C' => 'c' | 'D' => 'd' | 'E' => 'e'
  | 'F' => 'f' | 'G' => 'g' | 'H' => 'h' | 'I' => 'i' | 'J' => 'j'
  | 'K' => 'k' | 'L' => 'l' | 'M' => 'm' | 'N' => 'n' | 'O' => 'o'
  | 'P' => 'p' | 'Q' => 'q' | 'R' => 'r' | 'S' => 's' | 'T' => 't'
  | 'U' => 'u' | 'V' => 'v' | 'W' => 'w' | 'X' => 'x' | 'Y' => 'y'
  | 'Z' => 'z'
  | c => c

/-- Python `str.lower()` (restricted to ASCII lowering). -/
def pyLower (s : String) : String := String.mk (s.data.map asciiLower)

/-- `pre.isPrefixOf s` on the character lists: Python `s.startswith(pre)`. -/
def strStartsWith (pre s : String) : Bool := pre.data.isPrefixOf s.data

/-- Python `pat in l` on character lists (substring containment). -/
def containsPat (pat : List Char) : List Char → Bool
  | [] => pat.isEmpty
  | l@(_ :: t) => pat.isPrefixOf l || containsPat pat t

/-- Python `pat in s`: substring containment on strings. -/
def hasSub (pat s : String) : Bool := containsPat pat.data s.data

/-- The characters strictly before the first occurrence of `pat`
(`s.split(pat, 1)[0]` when `pat` occurs in `s`; all of `s` otherwise). -/
def beforePat (pat : List Char) : List Char → List Char
  | [] => []
  | l@(c :: t) => if pat.isPrefixOf l then [] else c :: beforePat pat t

/-- Python `s.split(pat, 1)[0]`. -/
def splitBeforeFirst (pat s : String) : String :=
  String.mk (beforePat pat.data s.data)

/-! ## Decimal rendering of naturals (Python `str(int)` / f-string) -/

/-- One decimal digit character. -/
def digitChar (n : Nat) : Char :=
  match n with
  | 0 => '0' | 1 => '1' | 2 => '2' | 3 => '3' | 4 => '4'
  | 5 => '5' | 6 => '6' | 7 => '7' | 8 => '8' | _ => '9'

/-- Fuel-driven decimal rendering (structurally recursive so that the
kernel can evaluate it). -/
def natCharsCore : Nat → Nat → List Char
  | 0, _ => []
  | fuel + 1, n =>
    if n < 10 then [digitChar n]
    else natCharsCore fuel (n / 10) ++ [digitChar (n % 10)]

/-- The decimal digit characters of `n`, most significant first. -/
def natChars (n : Nat) : List Char := natCharsCore (n + 1) n

/-- Numeric value of a decimal digit character. -/
def digitVal (c : Char) : Nat := c.toNat - 48

/-- Numeric value of a decimal digit string. -/
def charsVal (l : List Char) : Nat := l.foldl (fun a c => 10 * a + digitVal c) 0

theorem digitVal_digitChar {n : Nat} (h : n < 10) : digitVal (digitChar n) = n := by
  interval_cases n <;> rfl

theorem charsVal_append_digit (l : List Char) (c : Char) :
    charsVal (l ++ [c]) = 10 * charsVal l + digitVal c := by
  simp [charsVal, List.foldl_append]

theorem charsVal_natCharsCore :
    ∀ fuel n, n < fuel → charsVal (natCharsCore fuel n) = n := by
  intro fuel
  induction fuel with
  | zero => intro n h; omega
  | succ f ih =>
    intro n h
    by_cases h10 : n < 10
    · simp only [natCharsCore, if_pos h10]
      have : charsVal [digitChar n] = digitVal (digitChar n) := by
        simp [charsVal]
      rw [this, digitVal_digitChar h10]
    · simp only [natCharsCore, if_neg h10]
      have hdiv : n / 10 < f := by
        have h1 : n / 10 < n := Nat.div_lt_self (by omega) (by omega)
        omega
      rw [charsVal_append_digit, ih (n / 10) hdiv,
        digitVal_digitChar (Nat.mod_lt n (by omega))]
      omega

theorem charsVal_natChars (n : Nat) : charsVal (natChars n) = n :=
  charsVal_natCharsCore (n + 1) n (Nat.lt_succ_self n)

theorem natChars_injective : Function.Injective natChars := by
  intro a b h
  have ha := charsVal_natChars a
  have hb := charsVal_natChars b
  rw [h] at ha
  omega

/-! ## The completion marker (line 241 of `system_tools.py`)

`unique_end_marker = f"__END_OF_COMMAND_OUTPUT_{time.time_ns()}_{os.getpid()}__"`
-/

def markerPrefixChars : List Char := "__END_OF_COMMAND_OUTPUT_".data

/-- The character list of a completion marker built from a nanosecond
timestamp and a process id. -/
def makeMarkerChars (t pid : Nat) : List Char :=
  markerPrefixChars ++ (natChars t ++ ('_' :: (natChars pid ++ "__".data)))

/-- The completion marker string of one command. -/
def makeMarker (t pid : Nat) : String := String.mk (makeMarkerChars t pid)

/-! ## Security filter (`CommandTool._run`, lines 354-376)

`dangerous_keywords` is declared at line 355 but never read by the filter;
only `dangerous_prefixes` with `str.startswith` is consulted.
-/

def dangerous_keywords : List String :=
  ["rm ", "mkfs", "fdisk", "dd", "shutdown", "reboot", "mv ", ">", "|", "&&", ";"]

def dangerous_prefixes : List String :=
  ["rm ", "mkfs", "fdisk", "dd", "shutdown", "reboot", "mv "]

/-- `'-i' in c or '--interactive' in c`. -/
def hasInteractiveFlag (c : String) : Bool :=
  hasSub "-i" c || hasSub "--interactive" c

/-- The security decision of `_run` (sets `is_dangerous_command_type`):
the lowercased, stripped command is checked against the deny-listed
command starts, with `rm`/`mv` exempted when an interactive flag occurs
anywhere in the command. -/
def isDangerousCommand (cmd : String) : Bool :=
  let c := pyStrip (pyLower cmd)
  if dangerous_prefixes.any fun dp => strStartsWith dp c then
    if strStartsWith "rm " c && hasInteractiveFlag c then false
    else if strStartsWith "mv " c && hasInteractiveFlag c then false
    else true
  else false

/-! ## Executor model (`CommandTool._execute_raw_command_in_session`)

External effects are supplied through a `SessionEnv` record:
* `runningAtEntry` — `self.bash_process` exists and `poll()` is `None` on
  entry (line 226);
* `restartOk` — a `close(restarting=True)`/`_start_session()` pair leaves a
  running process;
* `timeNs`, `pid` — the values of `time.time_ns()` and `os.getpid()` read
  when the marker is built (line 241);
* `firstWriteOk` — the `stdin.write`/`flush` of the command succeeds
  (line 248); on failure no bytes reach the subprocess;
* `restartAfterWriteFailOk`, `retryWriteOk` — outcome of the restart and of
  the retried write inside the `except` handler (lines 252-263);
* `events` — the queue observations of the polling loop (lines 271-299),
  one entry per iteration: either a `(stream, line)` item or an empty poll
  together with the liveness and exit code `poll()` would report; the list
  ending without a marker models the wall-clock timeout elapsing (the stale
  entries drained at lines 234-238 are not part of `events`);
* `interruptWriteOk` — the Ctrl-C/recovery-marker writes after a timeout
  succeed (lines 309-311);
* `recoveryEvents` — queue observations of the 2-second recovery window
  (lines 314-323), `none` being an empty poll.
-/

inductive StreamTag
  | stdout
  | stderr
deriving DecidableEq

inductive PollEvent
  | line (tag : StreamTag) (content : String)
  | emptyPoll (procExited : Bool) (exitCode : Int)
deriving DecidableEq

structure SessionEnv where
  runningAtEntry : Bool
  restartOk : Bool
  timeNs : Nat
  pid : Nat
  firstWriteOk : Bool
  restartAfterWriteFailOk : Bool
  retryWriteOk : Bool
  events : List PollEvent
  interruptWriteOk : Bool
  recoveryEvents : List (Option (StreamTag × String))
deriving DecidableEq

/-- Append a line to the buffer matching its stream tag. -/
def appendTo (tag : StreamTag) (s : String) (outBuf errBuf : List String) :
    List String × List String :=
  match tag with
  | .stdout => (outBuf ++ [s], errBuf)
  | .stderr => (outBuf, errBuf ++ [s])

inductive LoopResult
  | completed (outBuf errBuf : List String)
  | crashed (outBuf errBuf : List String) (exitCode : Int)
  | timedOut (outBuf errBuf : List String)
deriving DecidableEq

/-- The marker-awaiting polling loop (lines 271-299): consume queue
observations until a line contains the marker (completed), an empty poll
finds the process dead (crashed), or the observations run out (the
wall-clock timeout elapsed). -/
def pollLoop (marker : String) (outBuf errBuf : List String) :
    List PollEvent → LoopResult
  | [] => .timedOut outBuf errBuf
  | .line tag content :: rest =>
    if hasSub marker content then
      let pre := splitBeforeFirst marker content
      if pyStrip pre = "" then .completed outBuf errBuf
      else
        let (o, e) := appendTo tag pre outBuf errBuf
        .completed o e
    else
      let (o, e) := appendTo tag content outBuf errBuf
      pollLoop marker o e rest
  | .emptyPoll exited code :: rest =>
    if exited then .crashed outBuf errBuf code
    else pollLoop marker outBuf errBuf rest

/-- The post-timeout recovery read loop (lines 313-323): stop when the
recovery marker shows up, otherwise append tagged recovery lines. -/
def recoveryLoop (recMarker : String) (outBuf errBuf : List String) :
    List (Option (StreamTag × String)) → List String × List String
  | [] => (outBuf, errBuf)
  | none :: rest => recoveryLoop recMarker outBuf errBuf rest
  | some (tag, content) :: rest =>
    if hasSub recMarker content then (outBuf, errBuf)
    else
      match tag with
      | .stdout =>
        recoveryLoop recMarker
          (outBuf ++ ["[TIMEOUT_RECOVERY_OUTPUT] " ++ content]) errBuf rest
      | .stderr =>
        recoveryLoop recMarker
          outBuf (errBuf ++ ["[TIMEOUT_RECOVERY_ERROR] " ++ content]) rest

/-- The recovery window bound of line 314 (`< 2` seconds). -/
def recoveryWindowSeconds : Nat := 2

/-- Result composition (lines 329-338), one constructor per `return`
template of the completed case. -/
inductive ComposeOutcome
  | stderrOnlyError (stderrText : String)
  | bothStreams (stdoutText stderrText : String)
  | stdoutOnly (stdoutText : String)
  | noOutput
deriving DecidableEq

/-- Lines 329-338: join each buffer, strip, then choose the template. -/
def composeResult (outBuf errBuf : List String) : ComposeOutcome :=
  let stdoutResult := pyStrip (String.join outBuf)
  let stderrResult := pyStrip (String.join errBuf)
  if stderrResult ≠ "" then
    if stdoutResult = "" then .stderrOnlyError stderrResult
    else .bothStreams stdoutResult stderrResult
  else if stdoutResult ≠ "" then .stdoutOnly stdoutResult
  else .noOutput

/-- The structured outcome of `_execute_raw_command_in_session`, one
constructor per `return` statement. `crashed` mirrors line 298, which
interpolates only the stripped joined buffers (the exit code is logged at
line 294, not returned). -/
inductive RawResult
  | startFailed
  | writeFailedNoRestart
  | writeFailedAfterRestart
  | crashed (partialStdout partialStderr : String)
  | timedOut (partialStdout partialStderr : String)
  | completed (outcome : ComposeOutcome)
deriving DecidableEq

/-- Externally visible actions: a write to the subprocess stdin, a
`close(restarting=True)`, a `_start_session()`. -/
inductive Action
  | write (s : String)
  | closeSession
  | startSession
deriving DecidableEq

/-- Line 243: `command_to_send = f"{command}\necho {unique_end_marker}\n"`. -/
def commandToSend (cmd marker : String) : String :=
  cmd ++ "\n" ++ "echo " ++ marker ++ "\n"

/-- Line 310: the one-shot recovery marker echo. -/
def recoveryEcho (marker : String) : String :=
  "echo " ++ marker ++ "_timeout_recovery" ++ "\n"

/-- The tail of `_execute_raw_command_in_session` after a successful write:
run the polling loop, then dispatch on its outcome (crash at lines 291-298,
timeout at lines 304-327, completion at lines 329-338). -/
def finishPoll (env : SessionEnv) (marker : String) (log : List Action) :
    RawResult × List Action :=
  match pollLoop marker [] [] env.events with
  | .completed o e => (.completed (composeResult o e), log)
  | .crashed o e _ =>
    (.crashed (pyStrip (String.join o)) (pyStrip (String.join e)),
      log ++ [.closeSession])
  | .timedOut o e =>
    if env.interruptWriteOk then
      let oe := recoveryLoop (marker ++ "_timeout_recovery") o e env.recoveryEvents
      (.timedOut (pyStrip (String.join oe.1)) (pyStrip (String.join oe.2)),
        log ++ [.write "\x03", .write (recoveryEcho marker)])
    else
      (.timedOut (pyStrip (String.join o)) (pyStrip (String.join e)), log)

/-- `_execute_raw_command_in_session(command)` (lines 225-338). -/
def execRaw (cmd : String) (env : SessionEnv) : RawResult × List Action :=
  let marker := makeMarker env.timeNs env.pid
  let toSend := commandToSend cmd marker
  if !env.runningAtEntry && !env.restartOk then
    (.startFailed, [.closeSession, .startSession])
  else
    let entryLog : List Action :=
      if env.runningAtEntry then [] else [.closeSession, .startSession]
    if env.firstWriteOk then
      finishPoll env marker (entryLog ++ [.write toSend])
    else if !env.restartAfterWriteFailOk then
      (.writeFailedNoRestart, entryLog ++ [.closeSession, .startSession])
    else if !env.retryWriteOk then
      (.writeFailedAfterRestart, entryLog ++ [.closeSession, .startSession])
    else
      finishPoll env marker
        (entryLog ++ [.closeSession, .startSession, .write toSend])

/-! ## `CommandTool._run` (lines 340-381) -/

inductive RunResult
  | terminatedAndRestarted (ok : Bool)
  | securityBlocked
  | executed (result : RawResult)
deriving DecidableEq

/-- `_run`, parameterised by the value bound to the local variable
`dangerous_keywords` at line 355 (the body never reads it). -/
def runWithKeywords (kws : List String) (cmd : String) (env : SessionEnv) :
    RunResult × List Action :=
  if pyStrip cmd = "terminate_session" then
    (.terminatedAndRestarted env.restartOk, [.closeSession, .startSession])
  else if isDangerousCommand cmd then
    (.securityBlocked, [])
  else
    let r := execRaw cmd env
    (.executed r.1, r.2)

/-- `CommandTool._run(command)`. -/
def runTool (cmd : String) (env : SessionEnv) : RunResult × List Action :=
  runWithKeywords dangerous_keywords cmd env

/-! ## `CommandTool.close` (lines 383-420)

The shutdown depends on the live process only through three observable
outcomes: whether stdin is still open, whether the graceful
`exit`/`wait(2)` path succeeds, and whether `terminate()`/`wait(2)`
succeeds; the `kill()` branch always runs to completion (its own `wait(1)`
failure is only logged) and the `finally` block clears `bash_process`. -/

structure CloseEnv where
  stdinOpen : Bool
  gracefulExitOk : Bool
  terminateOk : Bool
deriving DecidableEq

/-- One escalation step with its wait bound in seconds. -/
inductive CloseStep
  | writeExitAndCloseStdin (waitSeconds : Nat)
  | waitOnly (waitSeconds : Nat)
  | terminateSignal (waitSeconds : Nat)
  | killSignal (waitSeconds : Nat)
deriving DecidableEq

/-- The state of the `bash_process` attribute. -/
inductive ProcState
  | noProcess
  | deadProcess
  | runningProcess
deriving DecidableEq

/-- The escalation sequence executed on a running process: the graceful
`exit` directive with `wait(timeout=2)` (lines 390-397; the write is
skipped when stdin is already closed), then `terminate()` with
`wait(timeout=2)` (lines 401-403), then `kill()` with `wait(timeout=1)`
(lines 406-411), stopping after the first success. -/
def closeSteps (env : CloseEnv) : List CloseStep :=
  let graceful :=
    if env.stdinOpen then CloseStep.writeExitAndCloseStdin 2
    else CloseStep.waitOnly 2
  if env.gracefulExitOk then [graceful]
  else if env.terminateOk then [graceful, .terminateSignal 2]
  else [graceful, .terminateSignal 2, .killSignal 1]

/-- `close()`: on a running process escalate and clear the handle
(line 417); otherwise only log (lines 418-419), touching nothing. -/
def closeTool (env : CloseEnv) : ProcState → ProcState × List CloseStep
  | .runningProcess => (.noProcess, closeSteps env)
  | st => (st, [])

/-! ## `CommandTool._find_bash` (lines 54-122), POSIX branch

The filesystem and subprocess probes are supplied as an explicit record:
`envBashPath` is `os.getenv("BASH_EXEC_PATH")`; `whichBashOutput` is the
raw stdout of `which bash` when that run returns code 0 with truthy
stdout (`None` when `which` is missing, fails, or prints nothing);
`bashProbeOk` is the last-resort `bash --version` probe succeeding. -/

structure BashDiscoveryEnv where
  envBashPath : Option String
  pathExists : String → Bool
  pathExecutable : String → Bool
  whichBashOutput : Option String
  bashProbeOk : Bool

/-- The well-known install locations tried on macOS/Linux (lines 88-92). -/
def posixWellKnownBashPaths : List String :=
  ["/bin/bash", "/usr/bin/bash", "/usr/local/bin/bash"]

/-- Lines 94-101: the stripped `which bash` result is inserted at the
front of the candidate list unless already present. -/
def candidatePaths (env : BashDiscoveryEnv) : List String :=
  match env.whichBashOutput with
  | some out =>
    let foundPath := pyStrip out
    if foundPath ∈ posixWellKnownBashPaths then posixWellKnownBashPaths
    else foundPath :: posixWellKnownBashPaths
  | none => posixWellKnownBashPaths

/-- Lines 104-108: return the first candidate that, after stripping, is
non-empty, exists and is executable. -/
def findFirstUsable (env : BashDiscoveryEnv) : List String → Option String
  | [] => none
  | p :: rest =>
    let q := pyStrip p
    if q ≠ "" && env.pathExists q && env.pathExecutable q then some q
    else findFirstUsable env rest

/-- Lines 104-122: candidate scan, then the last-resort `bash` probe. -/
def findBashTail (env : BashDiscoveryEnv) : Option String :=
  match findFirstUsable env (candidatePaths env) with
  | some p => some p
  | none => if env.bashProbeOk then some "bash" else none

/-- `_find_bash` (POSIX branch). Note lines 56-59: the `BASH_EXEC_PATH`
override is returned as soon as it is non-empty and exists — no
executability check. -/
def find_bash (env : BashDiscoveryEnv) : Option String :=
  match env.envBashPath with
  | some p => if p ≠ "" && env.pathExists p then some p else findBashTail env
  | none => findBashTail env

/-- Modelled from the claim of C8 (spec §4.1 discovery order), for
comparison with `find_bash`: try the environment override, then the
well-known locations, then the locate-executable result, then the probe,
returning the first candidate that exists and is executable. -/
def find_bash_specOrder (env : BashDiscoveryEnv) : Option String :=
  let ok := fun (p : String) => env.pathExists p && env.pathExecutable p
  let fromEnvVar : Option String :=
    match env.envBashPath with
    | some p => if p ≠ "" && ok p then some p else none
    | none => none
  match fromEnvVar with
  | some p => some p
  | none =>
    match posixWellKnownBashPaths.find? ok with
    | some p => some p
    | none =>
      let fromWhich : Option String :=
        match env.whichBashOutput with
        | some out => if ok (pyStrip out) then some (pyStrip out) else none
        | none => none
      match fromWhich with
      | some p => some p
      | none => if env.bashProbeOk then some "bash" else none

/-! ## Helper lemmas -/

theorem forall_dropWhile_iff (p : Char → Bool) (l : List Char) :
    (∀ x ∈ l.dropWhile p, p x = true) ↔ (∀ x ∈ l, p x = true) := by
  constructor
  · intro h x hx
    have hx2 : x ∈ l.takeWhile p ++ l.dropWhile p := by
      rw [List.takeWhile_append_dropWhile]; exact hx
    rcases List.mem_append.mp hx2 with h1 | h2
    · exact List.mem_takeWhile_imp h1
    · exact h x h2
  · intro h x hx
    exact h x (List.Sublist.mem hx (List.dropWhile_sublist _))

theorem pyStripList_eq_nil_iff (l : List Char) :
    pyStripList l = [] ↔ ∀ c ∈ l, isPySpace c = true := by
  unfold pyStripList
  rw [List.reverse_eq_nil_iff, List.dropWhile_eq_nil_iff]
  simp only [List.mem_reverse]
  exact forall_dropWhile_iff isPySpace l

theorem pyStrip_eq_empty_iff (s : String) :
    pyStrip s = "" ↔ ∀ c ∈ s.data, isPySpace c = true := by
  constructor
  · intro h
    apply (pyStripList_eq_nil_iff s.data).mp
    have h2 := congrArg String.data h
    simpa [pyStrip] using h2
  · intro h
    have h2 : pyStripList s.data = [] := (pyStripList_eq_nil_iff s.data).mpr h
    show String.mk (pyStripList s.data) = ""
    rw [h2]

theorem isPySpace_asciiLower (c : Char) : isPySpace (asciiLower c) = isPySpace c := by
  unfold asciiLower
  split <;> rfl

theorem pyStripList_map_asciiLower (l : List Char) :
    pyStripList (l.map asciiLower) = (pyStripList l).map asciiLower := by
  unfold pyStripList
  have hp : (isPySpace ∘ asciiLower) = isPySpace := by
    funext c; exact isPySpace_asciiLower c
  rw [List.dropWhile_map, hp, ← List.map_reverse, List.dropWhile_map, hp,
    ← List.map_reverse]

theorem pyStrip_pyLower (s : String) : pyStrip (pyLower s) = pyLower (pyStrip s) := by
  show String.mk (pyStripList (s.data.map asciiLower)) =
    String.mk ((pyStripList s.data).map asciiLower)
  rw [pyStripList_map_asciiLower]

theorem beforePat_isPre (pat : List Char) : ∀ l, (beforePat pat l) <+: l := by
  intro l
  induction l with
  | nil => exact List.nil_prefix
  | cons c t ih =>
    by_cases h : pat.isPrefixOf (c :: t) = true
    · simp [beforePat, h]
    · simp only [beforePat, if_neg h]
      obtain ⟨r, hr⟩ := ih
      exact ⟨r, by rw [List.cons_append, hr]⟩

theorem beforePat_decomp (pat : List Char) :
    ∀ l, containsPat pat l = true →
      ∃ r, l = beforePat pat l ++ r ∧ pat.isPrefixOf r = true := by
  intro l
  induction l with
  | nil =>
    intro h
    simp only [containsPat, List.isEmpty_iff] at h
    refine ⟨[], by simp [beforePat], ?_⟩
    rw [h]
    rfl
  | cons c t ih =>
    intro h
    by_cases hp : pat.isPrefixOf (c :: t) = true
    · exact ⟨c :: t, by simp [beforePat, hp], hp⟩
    · simp only [containsPat, Bool.or_eq_true] at h
      rcases h with h1 | h2
      · exact absurd h1 hp
      · obtain ⟨r, hr1, hr2⟩ := ih h2
        refine ⟨r, ?_, hr2⟩
        simp only [beforePat, if_neg hp, List.cons_append]
        rw [← hr1]

theorem containsPat_beforePat (pat : List Char) (hne : pat ≠ []) :
    ∀ l, containsPat pat (beforePat pat l) = false := by
  intro l
  induction l with
  | nil =>
    simp [beforePat, containsPat, List.isEmpty_iff, hne]
  | cons c t ih =>
    by_cases hp : pat.isPrefixOf (c :: t) = true
    · simp [beforePat, hp, containsPat, List.isEmpty_iff, hne]
    · simp only [beforePat, if_neg hp, containsPat, Bool.or_eq_false_iff]
      refine ⟨?_, ih⟩
      by_contra hcon
      rw [Bool.not_eq_false] at hcon
      apply hp
      rw [List.isPrefixOf_iff_prefix] at hcon ⊢
      refine hcon.trans ?_
      obtain ⟨r, hr⟩ := beforePat_isPre pat t
      exact ⟨r, by rw [List.cons_append, hr]⟩

theorem head?_dropWhile_false (p : Char → Bool) (l : List Char) :
    ∀ c, (l.dropWhile p).head? = some c → p c = false := by
  intro c hc
  have h := List.head?_dropWhile_not p l
  rw [hc] at h
  exact h

theorem dropWhile_eq_self_of_head (p : Char → Bool) (l : List Char)
    (h : ∀ c, l.head? = some c → p c = false) : l.dropWhile p = l := by
  cases l with
  | nil => rfl
  | cons a t =>
    rw [List.dropWhile_cons, h a rfl]
    simp

theorem getLast?_dropWhile (p : Char → Bool) (l : List Char) :
    ∀ c, (l.dropWhile p).getLast? = some c → l.getLast? = some c := by
  intro c hc
  obtain ⟨w, hw⟩ := List.dropWhile_suffix p (l := l)
  rw [← hw, List.getLast?_append, hc]
  rfl

theorem pyStripList_eq_self (m : List Char)
    (h1 : ∀ c, m.head? = some c → isPySpace c = false)
    (h2 : ∀ c, m.getLast? = some c → isPySpace c = false) :
    pyStripList m = m := by
  unfold pyStripList
  rw [dropWhile_eq_self_of_head _ _ h1,
    dropWhile_eq_self_of_head _ _
      (by intro c hc; rw [List.head?_reverse] at hc; exact h2 c hc),
    List.reverse_reverse]

theorem pyStripList_idem (l : List Char) :
    pyStripList (pyStripList l) = pyStripList l := by
  apply pyStripList_eq_self
  · intro c hc
    unfold pyStripList at hc
    rw [List.head?_reverse] at hc
    have h2 := getLast?_dropWhile isPySpace ((l.dropWhile isPySpace).reverse) c hc
    rw [List.getLast?_reverse] at h2
    exact head?_dropWhile_false isPySpace l c h2
  · intro c hc
    unfold pyStripList at hc
    rw [List.getLast?_reverse] at hc
    exact head?_dropWhile_false isPySpace ((l.dropWhile isPySpace).reverse) c hc

theorem pyStrip_idem (s : String) : pyStrip (pyStrip s) = pyStrip s := by
  show String.mk (pyStripList (pyStripList s.data)) = String.mk (pyStripList s.data)
  rw [pyStripList_idem]

theorem finishPoll_log (env : SessionEnv) (m : String) (log : List Action) :
    ∃ t, (finishPoll env m log).2 = log ++ t := by
  unfold finishPoll
  split
  · exact ⟨[], by simp⟩
  · exact ⟨[.closeSession], rfl⟩
  · split
    · exact ⟨[.write "\x03", .write (recoveryEcho m)], rfl⟩
    · exact ⟨[], by simp⟩

theorem any_prefixed_of_rm {c : String} (h : strStartsWith "rm " c = true) :
    (dangerous_prefixes.any fun dp => strStartsWith dp c) = true := by
  simp only [dangerous_prefixes, List.any_cons, List.any_nil, Bool.or_eq_true]
  exact Or.inl h

theorem any_prefixed_of_mv {c : String} (h : strStartsWith "mv " c = true) :
    (dangerous_prefixes.any fun dp => strStartsWith dp c) = true := by
  simp only [dangerous_prefixes, List.any_cons, List.any_nil, Bool.or_eq_true]
  exact Or.inr (Or.inr (Or.inr (Or.inr (Or.inr (Or.inr (Or.inl h))))))

theorem rm_not_prefixed_of_mv {c : String} (h : strStartsWith "mv " c = true) :
    strStartsWith "rm " c = false := by
  by_contra hb
  rw [Bool.not_eq_false] at hb
  rw [strStartsWith, List.isPrefixOf_iff_prefix] at h hb
  obtain ⟨r1, hr1⟩ := h
  obtain ⟨r2, hr2⟩ := hb
  rw [← hr1] at hr2
  rw [show "rm ".data = ['r', 'm', ' '] from rfl,
    show "mv ".data = ['m', 'v', ' '] from rfl] at hr2
  simp only [List.cons_append, List.nil_append, List.cons.injEq] at hr2
  exact absurd hr2.1 (by decide)

theorem isDangerous_of_prefixed {cmd : String}
    (h1 : (dangerous_prefixes.any fun dp =>
      strStartsWith dp (pyStrip (pyLower cmd))) = true)
    (h2 : ¬((strStartsWith "rm " (pyStrip (pyLower cmd)) = true ∨
        strStartsWith "mv " (pyStrip (pyLower cmd)) = true) ∧
        hasInteractiveFlag (pyStrip (pyLower cmd)) = true)) :
    isDangerousCommand cmd = true := by
  have hrm : (strStartsWith "rm " (pyStrip (pyLower cmd)) &&
      hasInteractiveFlag (pyStrip (pyLower cmd))) = false := by
    by_contra hb
    rw [Bool.not_eq_false, Bool.and_eq_true] at hb
    exact h2 ⟨Or.inl hb.1, hb.2⟩
  have hmv : (strStartsWith "mv " (pyStrip (pyLower cmd)) &&
      hasInteractiveFlag (pyStrip (pyLower cmd))) = false := by
    by_contra hb
    rw [Bool.not_eq_false, Bool.and_eq_true] at hb
    exact h2 ⟨Or.inr hb.1, hb.2⟩
  simp [isDangerousCommand, h1, hrm, hmv]

theorem not_isDangerous_of_flag {cmd : String}
    (h : strStartsWith "rm " (pyStrip (pyLower cmd)) = true ∨
      strStartsWith "mv " (pyStrip (pyLower cmd)) = true)
    (hf : hasInteractiveFlag (pyStrip (pyLower cmd)) = true) :
    isDangerousCommand cmd = false := by
  rcases h with h | h
  · simp [isDangerousCommand, any_prefixed_of_rm h, h, hf]
  · simp [isDangerousCommand, any_prefixed_of_mv h, h, hf,
      rm_not_prefixed_of_mv h]

theorem strip_ne_terminate {cmd : String}
    (h : (dangerous_prefixes.any fun dp =>
      strStartsWith dp (pyStrip (pyLower cmd))) = true) :
    ¬ pyStrip cmd = "terminate_session" := by
  intro he
  have h1 : pyStrip (pyLower cmd) = "terminate_session" := by
    rw [pyStrip_pyLower, he]
    decide
  rw [h1] at h
  exact absurd h (by decide)

/-! ## Claim theorems -/

/-- C3: two completion markers built from the fixed prefix, a nanosecond
timestamp and the process id are never equal when the timestamp strictly
increases between the two constructions (the process id being that of the
one host process, unchanged across session restarts). -/
theorem c3_marker_uniqueness (t1 t2 p : Nat) (h : t1 < t2) :
    makeMarker t1 p ≠ makeMarker t2 p := by
  intro he
  have hd : makeMarkerChars t1 p = makeMarkerChars t2 p :=
    congrArg String.data he
  unfold makeMarkerChars at hd
  have h1 := List.append_cancel_left hd
  have h2 := List.append_cancel_right h1
  have h3 := natChars_injective h2
  omega

theorem c3_marker_uniqueness_witness :
    1 < 2 ∧ makeMarker 1 5 ≠ makeMarker 2 5 :=
  ⟨by decide, c3_marker_uniqueness 1 2 5 (by decide)⟩

/-- C2: when the polling loop completes (neither timeout nor crash), the
returned result is `composeResult`, and `composeResult` follows the
spec's policy: stderr non-empty and stdout empty gives an error outcome
carrying the stderr text; both non-empty gives both, labelled by stream;
both empty gives the canonical no-output text; otherwise the stdout
text (emptiness being that of the joined, stripped buffer, as at lines
329-330). -/
theorem c2_result_composition (cmd : String) (env : SessionEnv)
    (outBuf errBuf : List String)
    (hrun : env.runningAtEntry = true) (hw : env.firstWriteOk = true)
    (hp : pollLoop (makeMarker env.timeNs env.pid) [] [] env.events =
      .completed outBuf errBuf) :
    (execRaw cmd env).1 = .completed (composeResult outBuf errBuf) ∧
    (pyStrip (String.join errBuf) ≠ "" → pyStrip (String.join outBuf) = "" →
      composeResult outBuf errBuf =
        .stderrOnlyError (pyStrip (String.join errBuf))) ∧
    (pyStrip (String.join errBuf) ≠ "" → pyStrip (String.join outBuf) ≠ "" →
      composeResult outBuf errBuf =
        .bothStreams (pyStrip (String.join outBuf)) (pyStrip (String.join errBuf))) ∧
    (pyStrip (String.join errBuf) = "" → pyStrip (String.join outBuf) = "" →
      composeResult outBuf errBuf = .noOutput) ∧
    (pyStrip (String.join errBuf) = "" → pyStrip (String.join outBuf) ≠ "" →
      composeResult outBuf errBuf = .stdoutOnly (pyStrip (String.join outBuf))) := by
  refine ⟨?_, ?_, ?_, ?_, ?_⟩
  · simp [execRaw, finishPoll, hrun, hw, hp]
  · intro h1 h2; simp [composeResult, h1, h2]
  · intro h1 h2; simp [composeResult, h1, h2]
  · intro h1 h2; simp [composeResult, h1, h2]
  · intro h1 h2; simp [composeResult, h1, h2]

def c2Env : SessionEnv :=
  ⟨true, true, 1, 2, true, true, true,
    [.line .stdout "hi\n", .line .stderr "oops\n",
     .line .stdout "__END_OF_COMMAND_OUTPUT_1_2__\n"], true, []⟩

theorem c2_result_composition_witness :
    (execRaw "echo hi" c2Env).1 = .completed (composeResult ["hi\n"] ["oops\n"]) ∧
    composeResult ["hi\n"] ["oops\n"] = .bothStreams "hi" "oops" := by
  have h := c2_result_composition "echo hi" c2Env ["hi\n"] ["oops\n"] rfl rfl
    (by decide)
  refine ⟨h.1, ?_⟩
  have h2 := h.2.2.1 (by decide) (by decide)
  rw [h2]
  decide

/-- C7: `close()` is idempotent — a no-op on a session that is not
running (already terminated or never started), safe to repeat — and on a
running process it escalates through exactly the ordered steps: write the
exit directive and close stdin waiting at most 2 s, on failure terminate
waiting at most 2 s, on failure kill waiting at most 1 s. -/
theorem c7_close_contract :
    (∀ (env : CloseEnv) (st : ProcState), st ≠ .runningProcess →
      closeTool env st = (st, [])) ∧
    (∀ (env1 env2 : CloseEnv) (st : ProcState),
      closeTool env2 (closeTool env1 st).1 = ((closeTool env1 st).1, [])) ∧
    (∀ env : CloseEnv, env.stdinOpen = true → env.gracefulExitOk = true →
      closeTool env .runningProcess = (.noProcess, [.writeExitAndCloseStdin 2])) ∧
    (∀ env : CloseEnv, env.stdinOpen = true → env.gracefulExitOk = false →
      env.terminateOk = true →
      closeTool env .runningProcess =
        (.noProcess, [.writeExitAndCloseStdin 2, .terminateSignal 2])) ∧
    (∀ env : CloseEnv, env.stdinOpen = true → env.gracefulExitOk = false →
      env.terminateOk = false →
      closeTool env .runningProcess =
        (.noProcess,
          [.writeExitAndCloseStdin 2, .terminateSignal 2, .killSignal 1])) := by
  refine ⟨?_, ?_, ?_, ?_, ?_⟩
  · intro env st h
    cases st with
    | noProcess => rfl
    | deadProcess => rfl
    | runningProcess => exact absurd rfl h
  · intro env1 env2 st
    cases st <;> rfl
  · intro env h1 h2; simp [closeTool, closeSteps, h1, h2]
  · intro env h1 h2 h3; simp [closeTool, closeSteps, h1, h2, h3]
  · intro env h1 h2 h3; simp [closeTool, closeSteps, h1, h2, h3]

theorem c7_close_contract_witness :
    closeTool ⟨true, false, true⟩ .deadProcess = (.deadProcess, []) ∧
    closeTool ⟨true, false, true⟩ .runningProcess =
      (.noProcess, [.writeExitAndCloseStdin 2, .terminateSignal 2]) :=
  ⟨c7_close_contract.1 ⟨true, false, true⟩ .deadProcess (by decide),
   c7_close_contract.2.2.2.1 ⟨true, false, true⟩ rfl rfl rfl⟩

/-- C10: when a polled line contains the completion marker, the loop
stops, keeping only the text strictly before the first occurrence of the
marker (its concatenation with a marker-led remainder reproduces the
line, and it contains no marker occurrence itself); that text is appended
to the matching stream buffer exactly when it strips to non-empty —
equivalently, when it has a non-whitespace character — and the text after
the marker is discarded. -/
theorem c10_marker_line_split (marker content : String) (tag : StreamTag)
    (outBuf errBuf : List String) (rest : List PollEvent)
    (hm : marker ≠ "") (hc : hasSub marker content = true) :
    (pollLoop marker outBuf errBuf (.line tag content :: rest) =
      if pyStrip (splitBeforeFirst marker content) = ""
      then .completed outBuf errBuf
      else .completed
        (appendTo tag (splitBeforeFirst marker content) outBuf errBuf).1
        (appendTo tag (splitBeforeFirst marker content) outBuf errBuf).2) ∧
    (∃ r, content.data = (splitBeforeFirst marker content).data ++ r ∧
      marker.data.isPrefixOf r = true) ∧
    hasSub marker (splitBeforeFirst marker content) = false ∧
    (pyStrip (splitBeforeFirst marker content) = "" ↔
      ∀ c ∈ (splitBeforeFirst marker content).data, isPySpace c = true) := by
  have hmd : marker.data ≠ [] := by
    intro h0
    apply hm
    have h1 : marker = String.mk marker.data := rfl
    rw [h1, h0]
  refine ⟨?_, ?_, ?_, pyStrip_eq_empty_iff _⟩
  · by_cases hpre : pyStrip (splitBeforeFirst marker content) = ""
    · simp [pollLoop, hc, hpre]
    · cases tag <;> simp [pollLoop, hc, hpre, appendTo]
  · obtain ⟨r, hr1, hr2⟩ := beforePat_decomp marker.data content.data hc
    exact ⟨r, hr1, hr2⟩
  · exact containsPat_beforePat marker.data hmd content.data

theorem c10_marker_line_split_witness :
    pollLoop "MARK" ["a\n"] [] [.line .stdout " \t MARK tail"] =
      .completed ["a\n"] [] ∧
    hasSub "MARK" (splitBeforeFirst "MARK" " \t MARK tail") = false := by
  have h := c10_marker_line_split "MARK" " \t MARK tail" .stdout ["a\n"] [] []
    (by decide) (by decide)
  refine ⟨?_, h.2.2.1⟩
  rw [h.1]
  decide

/-- C1: a command whose lowercased, stripped form starts with a
deny-listed destructive command start and lacks the interactive flag
recognised for its family is rejected with nothing written to the
subprocess; an `rm`/`mv` command carrying `-i` or `--interactive` is
forwarded: execution proceeds and the first bytes written are the command
followed by its marker echo. -/
theorem c1_security_gate :
    (∀ (cmd : String) (env : SessionEnv),
      (dangerous_prefixes.any fun dp =>
        strStartsWith dp (pyStrip (pyLower cmd))) = true →
      ¬((strStartsWith "rm " (pyStrip (pyLower cmd)) = true ∨
          strStartsWith "mv " (pyStrip (pyLower cmd)) = true) ∧
        hasInteractiveFlag (pyStrip (pyLower cmd)) = true) →
      runTool cmd env = (.securityBlocked, [])) ∧
    (∀ (cmd : String) (env : SessionEnv),
      (strStartsWith "rm " (pyStrip (pyLower cmd)) = true ∨
        strStartsWith "mv " (pyStrip (pyLower cmd)) = true) →
      hasInteractiveFlag (pyStrip (pyLower cmd)) = true →
      env.runningAtEntry = true → env.firstWriteOk = true →
      ∃ tail,
        runTool cmd env =
          (.executed (execRaw cmd env).1,
            Action.write (commandToSend cmd (makeMarker env.timeNs env.pid))
              :: tail)) := by
  constructor
  · intro cmd env h1 h2
    have ht := strip_ne_terminate h1
    have hd := isDangerous_of_prefixed h1 h2
    simp [runTool, runWithKeywords, ht, hd]
  · intro cmd env h hf hrun hw
    have hany : (dangerous_prefixes.any fun dp =>
        strStartsWith dp (pyStrip (pyLower cmd))) = true := by
      rcases h with h | h
      · exact any_prefixed_of_rm h
      · exact any_prefixed_of_mv h
    have ht := strip_ne_terminate hany
    have hd := not_isDangerous_of_flag h hf
    have hexec : execRaw cmd env = finishPoll env (makeMarker env.timeNs env.pid)
        [.write (commandToSend cmd (makeMarker env.timeNs env.pid))] := by
      simp [execRaw, hrun, hw]
    obtain ⟨t, htl⟩ := finishPoll_log env (makeMarker env.timeNs env.pid)
      [.write (commandToSend cmd (makeMarker env.timeNs env.pid))]
    refine ⟨t, ?_⟩
    have h2 : (execRaw cmd env).2 =
        Action.write (commandToSend cmd (makeMarker env.timeNs env.pid)) :: t := by
      rw [hexec, htl]
      rfl
    have hgoal : runTool cmd env =
        (.executed (execRaw cmd env).1, (execRaw cmd env).2) := by
      simp [runTool, runWithKeywords, ht, hd]
    rw [hgoal, h2]

def c1Env : SessionEnv := ⟨true, true, 1, 2, true, true, true, [], true, []⟩

theorem c1_security_gate_witness :
    runTool "rm -rf /" c1Env = (.securityBlocked, []) ∧
    ∃ tail, runTool "rm -i /tmp/foo" c1Env =
      (.executed (execRaw "rm -i /tmp/foo" c1Env).1,
        Action.write (commandToSend "rm -i /tmp/foo" (makeMarker 1 2)) :: tail) := by
  constructor
  · exact c1_security_gate.1 "rm -rf /" c1Env (by decide) (by decide)
  · exact c1_security_gate.2 "rm -i /tmp/foo" c1Env (Or.inl (by decide))
      (by decide) rfl rfl

/-- C9: the security filter matches only on the command's leading text
after lowercasing and stripping: a command not starting with one of the
seven deny-listed command starts is never rejected, even when destructive
text, redirection, pipes or chaining occur later in it; and `_run` is
unchanged under any value of the unread `dangerous_keywords` list. -/
theorem c9_prefix_only_filter :
    (∀ (cmd : String) (env : SessionEnv),
      (dangerous_prefixes.any fun dp =>
        strStartsWith dp (pyStrip (pyLower cmd))) = false →
      (runTool cmd env).1 ≠ RunResult.securityBlocked) ∧
    (∀ (kws1 kws2 : List String) (cmd : String) (env : SessionEnv),
      runWithKeywords kws1 cmd env = runWithKeywords kws2 cmd env) := by
  constructor
  · intro cmd env h
    have hd : isDangerousCommand cmd = false := by
      simp [isDangerousCommand, h]
    by_cases ht : pyStrip cmd = "terminate_session"
    · simp [runTool, runWithKeywords, ht]
    · simp [runTool, runWithKeywords, ht, hd]
  · intro kws1 kws2 cmd env
    rfl

def c9Env : SessionEnv := ⟨true, true, 3, 4, true, true, true, [], true, []⟩

theorem c9_prefix_only_filter_witness :
    (runTool "cd /tmp && rm -rf *" c9Env).1 ≠ RunResult.securityBlocked :=
  c9_prefix_only_filter.1 "cd /tmp && rm -rf *" c9Env (by decide)

def c4CrashEnv : SessionEnv :=
  ⟨true, true, 1, 2, true, true, true, [.emptyPoll true 0], true, []⟩

/-- C4 counterexample: with the session running, the write succeeding and
the subprocess observed dead at the first empty poll, the call returns the
Crashed result directly: the command is written exactly once (no retry)
and no `_start_session` occurs during the call — contradicting the
claimed restart-and-retry on Crashed. -/
theorem c4_counterexample :
    execRaw "echo hi" c4CrashEnv =
      (.crashed "" "",
        [.write (commandToSend "echo hi" (makeMarker 1 2)), .closeSession]) ∧
    (execRaw "echo hi" c4CrashEnv).2.count
      (Action.write (commandToSend "echo hi" (makeMarker 1 2))) = 1 ∧
    Action.startSession ∉ (execRaw "echo hi" c4CrashEnv).2 := by
  refine ⟨by decide, by decide, by decide⟩

/-- C4 (amended): only a failed stdin write triggers the single automatic
restart-and-retry of the same command, a second write failure (or a
failed restart) being returned as terminal; an observed subprocess exit
instead closes the session and returns the Crashed result at once, with
no retry and no restart within the call. -/
theorem c4_amended_retry_policy (cmd : String) (env : SessionEnv)
    (hrun : env.runningAtEntry = true) :
    (env.firstWriteOk = false → env.restartAfterWriteFailOk = true →
      env.retryWriteOk = true →
      execRaw cmd env = finishPoll env (makeMarker env.timeNs env.pid)
        [.closeSession, .startSession,
          .write (commandToSend cmd (makeMarker env.timeNs env.pid))]) ∧
    (env.firstWriteOk = false → env.restartAfterWriteFailOk = true →
      env.retryWriteOk = false →
      execRaw cmd env =
        (.writeFailedAfterRestart, [.closeSession, .startSession])) ∧
    (env.firstWriteOk = false → env.restartAfterWriteFailOk = false →
      execRaw cmd env =
        (.writeFailedNoRestart, [.closeSession, .startSession])) ∧
    (∀ (o e : List String) (code : Int), env.firstWriteOk = true →
      pollLoop (makeMarker env.timeNs env.pid) [] [] env.events =
        .crashed o e code →
      execRaw cmd env =
        (.crashed (pyStrip (String.join o)) (pyStrip (String.join e)),
          [.write (commandToSend cmd (makeMarker env.timeNs env.pid)),
            .closeSession])) := by
  refine ⟨?_, ?_, ?_, ?_⟩
  · intro h1 h2 h3; simp [execRaw, hrun, h1, h2, h3]
  · intro h1 h2 h3; simp [execRaw, hrun, h1, h2, h3]
  · intro h1 h2; simp [execRaw, hrun, h1, h2]
  · intro o e code h1 h2; simp [execRaw, finishPoll, hrun, h1, h2]

theorem c4_amended_retry_policy_witness :
    execRaw "echo hi" c4CrashEnv =
      (.crashed (pyStrip (String.join [])) (pyStrip (String.join [])),
        [.write (commandToSend "echo hi"
          (makeMarker c4CrashEnv.timeNs c4CrashEnv.pid)), .closeSession]) :=
  (c4_amended_retry_policy "echo hi" c4CrashEnv rfl).2.2.2 [] [] 0 rfl (by decide)

def c5EnvA : SessionEnv :=
  ⟨true, true, 1, 2, true, true, true,
    [.line .stdout "partial\n", .line .stderr "oops\n", .emptyPoll true 3],
    true, []⟩

def c5EnvB : SessionEnv :=
  ⟨true, true, 1, 2, true, true, true,
    [.line .stdout "partial\n", .line .stderr "oops\n", .emptyPoll true 4],
    true, []⟩

/-- C5 counterexample: two executions identical except for the
subprocess's exit status (3 versus 4) return identical results, so the
Crashed result returned to the caller cannot carry the exit status —
line 298 interpolates only the two partial buffers; the exit code is
merely logged. -/
theorem c5_counterexample :
    c5EnvA ≠ c5EnvB ∧
    (execRaw "ls" c5EnvA).1 = RawResult.crashed "partial" "oops" ∧
    execRaw "ls" c5EnvA = execRaw "ls" c5EnvB := by
  refine ⟨by decide, by decide, by decide⟩

/-- C5 (amended): when the subprocess is observed to have exited while
awaiting the marker, execution stops and the Crashed result carries the
partial stdout and the partial stderr buffered so far (each joined and
stripped); the exit status is logged but not part of the returned
result. -/
theorem c5_crash_partial_buffers (cmd : String) (env : SessionEnv)
    (o e : List String) (code : Int)
    (hrun : env.runningAtEntry = true) (hw : env.firstWriteOk = true)
    (hp : pollLoop (makeMarker env.timeNs env.pid) [] [] env.events =
      .crashed o e code) :
    (execRaw cmd env).1 =
      .crashed (pyStrip (String.join o)) (pyStrip (String.join e)) := by
  simp [execRaw, finishPoll, hrun, hw, hp]

theorem c5_crash_partial_buffers_witness :
    (execRaw "ls" c5EnvA).1 =
      .crashed (pyStrip (String.join ["partial\n"]))
        (pyStrip (String.join ["oops\n"])) :=
  c5_crash_partial_buffers "ls" c5EnvA ["partial\n"] ["oops\n"] 3 rfl rfl
    (by decide)

/-- C6: when the marker does not appear within the timeout, the executor
writes the Ctrl-C byte and then the one-shot recovery-marker echo, reads
the (2-second) recovery window, and returns a Timeout result carrying the
partial buffers collected so far (joined and stripped); no session close
or restart happens during the call. -/
theorem c6_timeout_policy (cmd : String) (env : SessionEnv)
    (o e : List String)
    (hrun : env.runningAtEntry = true) (hw : env.firstWriteOk = true)
    (hi : env.interruptWriteOk = true)
    (hp : pollLoop (makeMarker env.timeNs env.pid) [] [] env.events =
      .timedOut o e) :
    execRaw cmd env =
      (.timedOut
        (pyStrip (String.join (recoveryLoop
          (makeMarker env.timeNs env.pid ++ "_timeout_recovery") o e
          env.recoveryEvents).1))
        (pyStrip (String.join (recoveryLoop
          (makeMarker env.timeNs env.pid ++ "_timeout_recovery") o e
          env.recoveryEvents).2)),
        [.write (commandToSend cmd (makeMarker env.timeNs env.pid)),
          .write "\x03",
          .write (recoveryEcho (makeMarker env.timeNs env.pid))]) ∧
    Action.closeSession ∉ (execRaw cmd env).2 ∧
    Action.startSession ∉ (execRaw cmd env).2 ∧
    recoveryWindowSeconds = 2 := by
  have h1 : execRaw cmd env =
      (.timedOut
        (pyStrip (String.join (recoveryLoop
          (makeMarker env.timeNs env.pid ++ "_timeout_recovery") o e
          env.recoveryEvents).1))
        (pyStrip (String.join (recoveryLoop
          (makeMarker env.timeNs env.pid ++ "_timeout_recovery") o e
          env.recoveryEvents).2)),
        [.write (commandToSend cmd (makeMarker env.timeNs env.pid)),
          .write "\x03",
          .write (recoveryEcho (makeMarker env.timeNs env.pid))]) := by
    simp [execRaw, finishPoll, hrun, hw, hi, hp]
  refine ⟨h1, ?_, ?_, rfl⟩
  · rw [h1]; simp
  · rw [h1]; simp

def c6Env : SessionEnv :=
  ⟨true, true, 1, 2, true, true, true, [], true, [some (.stdout, "late\n")]⟩

theorem c6_timeout_policy_witness :
    (execRaw "sleep 100" c6Env).1 =
      RawResult.timedOut "[TIMEOUT_RECOVERY_OUTPUT] late" "" ∧
    Action.closeSession ∉ (execRaw "sleep 100" c6Env).2 := by
  have h := c6_timeout_policy "sleep 100" c6Env [] [] rfl rfl rfl (by decide)
  refine ⟨?_, h.2.1⟩
  rw [h.1]
  decide

def c8Env : BashDiscoveryEnv :=
  { envBashPath := none
    pathExists := fun p => p == "/opt/homebrew/bin/bash" || p == "/bin/bash"
    pathExecutable := fun p => p == "/opt/homebrew/bin/bash" || p == "/bin/bash"
    whichBashOutput := some "/opt/homebrew/bin/bash\n"
    bashProbeOk := false }

/-- C8 counterexample: with no environment override, `which bash`
reporting `/opt/homebrew/bin/bash`, and both that path and `/bin/bash`
existing and executable, the code returns the `which` result while the
claimed order (well-known locations before the locate-executable
facility) would return `/bin/bash` — the `which` result is inserted at
the front of the candidate list, not tried after it. -/
theorem c8_counterexample :
    find_bash c8Env = some "/opt/homebrew/bin/bash" ∧
    find_bash_specOrder c8Env = some "/bin/bash" ∧
    find_bash c8Env ≠ find_bash_specOrder c8Env := by
  refine ⟨by decide, by decide, by decide⟩

/-- C8 (amended): discovery tries, in order: the `BASH_EXEC_PATH`
override, returned as soon as it is non-empty and exists (executability
is not checked); then the stripped `which bash` result, prepended to the
candidate list when not already among the well-known locations; then the
well-known locations `/bin/bash`, `/usr/bin/bash`, `/usr/local/bin/bash`
(each returned only if non-empty, existing and executable); then the
last-resort direct `bash` probe; if everything fails, discovery reports
no interpreter found. -/
theorem c8_discovery_order (env : BashDiscoveryEnv) :
    (∀ p, env.envBashPath = some p → p ≠ "" → env.pathExists p = true →
      find_bash env = some p) ∧
    (∀ p, env.envBashPath = some p → (p = "" ∨ env.pathExists p = false) →
      find_bash env = findBashTail env) ∧
    (env.envBashPath = none → find_bash env = findBashTail env) ∧
    (∀ w, env.whichBashOutput = some w →
      pyStrip w ∉ posixWellKnownBashPaths → pyStrip w ≠ "" →
      env.pathExists (pyStrip w) = true →
      env.pathExecutable (pyStrip w) = true →
      findBashTail env = some (pyStrip w)) ∧
    (env.whichBashOutput = none →
      findBashTail env =
        match findFirstUsable env posixWellKnownBashPaths with
        | some p => some p
        | none => if env.bashProbeOk then some "bash" else none) ∧
    (findFirstUsable env (candidatePaths env) = none →
      env.bashProbeOk = true → findBashTail env = some "bash") ∧
    (findFirstUsable env (candidatePaths env) = none →
      env.bashProbeOk = false → findBashTail env = none) := by
  refine ⟨?_, ?_, ?_, ?_, ?_, ?_, ?_⟩
  · intro p hp hne hex
    simp [find_bash, hp, hne, hex]
  · intro p hp hcase
    rcases hcase with h | h
    · simp [find_bash, hp, h]
    · by_cases hne : p = ""
      · simp [find_bash, hp, hne]
      · simp [find_bash, hp, hne, h]
  · intro hp
    simp [find_bash, hp]
  · intro w hw hnotmem hne hex hexec
    have hcand : candidatePaths env = pyStrip w :: posixWellKnownBashPaths := by
      simp [candidatePaths, hw, hnotmem]
    have hfirst : findFirstUsable env (pyStrip w :: posixWellKnownBashPaths) =
        some (pyStrip w) := by
      simp [findFirstUsable, pyStrip_idem, hne, hex, hexec]
    simp [findBashTail, hcand, hfirst]
  · intro hw
    have hcand : candidatePaths env = posixWellKnownBashPaths := by
      simp [candidatePaths, hw]
    simp [findBashTail, hcand]
  · intro hfu hb
    simp [findBashTail, hfu, hb]
  · intro hfu hb
    simp [findBashTail, hfu, hb]

def c8WitnessEnv : BashDiscoveryEnv :=
  { envBashPath := some "/custom/bash"
    pathExists := fun p => p == "/custom/bash"
    pathExecutable := fun _ => false
    whichBashOutput := none
    bashProbeOk := false }

theorem c8_discovery_order_witness :
    find_bash c8WitnessEnv = some "/custom/bash" :=
  (c8_discovery_order c8WitnessEnv).1 "/custom/bash" rfl (by decide) (by decide)

end CyberAgent
